import Mathlib

/-!
Shallow embedding of the Payrixa drift-detection and alerting core.

Sources embedded:
- `src/payrixa/alerts/services.py` (alert evaluation, suppression, multi-channel
  notification delivery, batch processing);
- `src/upstream/services/base_drift_detection.py` (time windows, confidence
  scoring, transactional compute template).

Modelling conventions:
- Timestamps are integers (minutes); the 4-hour suppression cooldown is 240.
- Dates in the drift-detection windows are integers (days).
- Python floats / Decimals are rationals.
- Django querysets over a table are lists of rows threaded explicitly.
- The external transports (SMTP send, Slack webhook POST) are oracle functions
  passed as parameters; an `Except` error models a raised exception.
- `AlertRule.evaluate` (alerts/models.py, not part of the staged sources) is an
  abstract boolean parameter `ruleEval`; every theorem holds for all of them.
- `build_driftwatch_evidence_payload` (not part of the staged sources) is
  likewise abstracted: the evidence payload is passed to the notifier directly.
-/

namespace Payrixa

/-- Status values of `AlertEvent.status` ('pending', 'sent', 'failed', 'resolved'). -/
inductive AlertStatus where
  | pending
  | sent
  | failed
  | resolved
deriving DecidableEq, Repr

/-- `NotificationChannel.channel_type` values ('email', 'slack', 'webhook'). -/
inductive ChannelType where
  | email
  | slack
  | webhook
deriving DecidableEq, Repr

/-- The denormalized JSON `payload` snapshot stored on an AlertEvent, as built
by `evaluate_drift_event` (services.py lines 192-205). String-valued JSON
entries that may be null are `Option String`. -/
structure AlertPayload where
  product_name : Option String
  signal_type : Option String
  entity_label : Option String
  payer : String
  cpt_group : Option String
  drift_type : String
  baseline_value : ℚ
  current_value : ℚ
  delta_value : ℚ
  severity : ℚ
  rule_name : String
  rule_threshold : ℚ
deriving DecidableEq, Repr

/-- One row of the `AlertEvent` table. Foreign keys are ids. -/
structure AlertEvent where
  id : ℕ
  customerId : ℕ
  ruleId : ℕ
  driftEventId : ℕ
  reportRunId : ℕ
  triggeredAt : ℤ
  status : AlertStatus
  payload : AlertPayload
  notificationSentAt : Option ℤ
  errorMessage : Option String
deriving DecidableEq, Repr

/-- One row of the `AlertRule` table. The threshold-matching logic
(`AlertRule.evaluate`, alerts/models.py) is not part of the staged sources and
is abstracted as a parameter `ruleEval` below. -/
structure AlertRule where
  id : ℕ
  customerId : ℕ
  name : String
  enabled : Bool
  metric : String
  threshold_type : String
  threshold_value : ℚ
deriving DecidableEq, Repr

/-- One row of the `DriftEvent` table (the fields `evaluate_drift_event` reads). -/
structure DriftEvent where
  id : ℕ
  customerId : ℕ
  reportRunId : ℕ
  payer : String
  cpt_group : Option String
  drift_type : String
  baseline_value : ℚ
  current_value : ℚ
  delta_value : ℚ
  severity : ℚ
deriving DecidableEq, Repr

/-- One row of the `OperatorJudgment` table (human feedback on a resolved
AlertEvent; `verdict` is 'noise', 'real' or 'needs_followup'). -/
structure OperatorJudgment where
  id : ℕ
  alertEventId : ℕ
  verdict : String
deriving DecidableEq, Repr

/-- One row of the `NotificationChannel` table. `config` is channel-specific
JSON: `recipients` for email channels, `webhook_url` for slack channels. -/
structure NotificationChannel where
  id : ℕ
  customerId : ℕ
  channelType : ChannelType
  enabled : Bool
  recipients : List String
  webhookUrl : Option String
deriving DecidableEq, Repr

/-- The argument `_is_suppressed` receives for `evidence_payload`:
`empty` stands for a falsy value (`None` or `{}`, services.py line 885);
`fields p s e` stands for a non-empty dict whose `.get` of
'product_name', 'signal_type', 'entity_label' returns `p`, `s`, `e`. -/
inductive EvidenceArg where
  | empty
  | fields (product_name signal_type entity_label : Option String)
deriving DecidableEq, Repr

/-- `ALERT_SUPPRESSION_COOLDOWN = timedelta(hours=4)`, in minutes. -/
def ALERT_SUPPRESSION_COOLDOWN : ℤ := 240

/-- The cooldown filter of `_is_suppressed` (services.py lines 888-895) applied
to one AlertEvent row: same customer, status 'sent', `notification_sent_at`
at or after `now - cooldown` (a null timestamp never matches a `__gte` lookup),
and the three payload keys equal to the evidence's. -/
def suppressionRowMatch (now : ℤ) (customerId : ℕ)
    (p s e : Option String) (ev : AlertEvent) : Bool :=
  decide (ev.customerId = customerId) &&
  decide (ev.status = AlertStatus.sent) &&
  (match ev.notificationSentAt with
   | some t => decide (now - ALERT_SUPPRESSION_COOLDOWN ≤ t)
   | none => false) &&
  decide (ev.payload.product_name = p) &&
  decide (ev.payload.signal_type = s) &&
  decide (ev.payload.entity_label = e)

/-- `_is_suppressed(customer, evidence_payload)` (services.py lines 885-895):
falsy evidence is never suppressed; otherwise suppressed iff some AlertEvent
row passes the cooldown filter. `events` is the AlertEvent table. -/
def _is_suppressed (now : ℤ) (events : List AlertEvent) (customerId : ℕ)
    (evidence_payload : EvidenceArg) : Bool :=
  match evidence_payload with
  | .empty => false
  | .fields p s e => events.any (suppressionRowMatch now customerId p s e)

/-- Modelled from the spec: the noise-pattern suppression trigger of section
4.5(b), which is absent from `src/payrixa/alerts/services.py`. True when the
resolved AlertEvents sharing the evidence key `(product_name, signal_type,
entity_label)` have accumulated at least 2 OperatorJudgment records with
verdict 'noise'. The spec leaves the exact bounded history open; this
counts over all resolved events with the key, which agrees with any
"N most recent" reading whenever at most N such events exist. -/
def noisePatternSpec (events : List AlertEvent) (judgments : List OperatorJudgment)
    (p s e : Option String) : Bool :=
  let resolvedMatching := events.filter fun ev =>
    decide (ev.status = AlertStatus.resolved) &&
    decide (ev.payload.product_name = p) &&
    decide (ev.payload.signal_type = s) &&
    decide (ev.payload.entity_label = e)
  let noiseJudgments := judgments.filter fun j =>
    decide (j.verdict = "noise") &&
    resolvedMatching.any fun ev => decide (ev.id = j.alertEventId)
  decide (2 ≤ noiseJudgments.length)

/-- Settings that `send_alert_notification` and the channel senders read:
`SLACK_ENABLED` (default False) and `DEFAULT_ALERT_EMAIL`. -/
structure SendConfig where
  slackEnabled : Bool
  defaultAlertEmail : String
deriving DecidableEq, Repr

/-- The external transports, as oracles. `emailSend` models the outcome of
`email.send(fail_silently=False)` in `_send_email_with_pdf` for a given
recipient list: `.ok` delivered, `.error m` an exception with message `m`.
`slackPost` models `requests.post(webhook_url, ...)`: `.ok status` an HTTP
response, `.error m` a raised exception (caught by the slack sender). -/
structure Transports where
  emailSend : List String → Except String Unit
  slackPost : String → Except String ℕ

/-- A record of one actual transport call (an email handed to SMTP, a POST to
a Slack webhook). Skipped channels (webhook type, disabled Slack, email with
no recipients) invoke no transport and leave no record. -/
inductive Invocation where
  | email (recipients : List String)
  | slack (webhookUrl : String)
deriving DecidableEq, Repr

/-- Outcome of the dispatch section of `send_alert_notification` (services.py
lines 381-395): the final value of the `success` variable, the transports
invoked in order, and `some m` when an exception escaped the channel loop. -/
structure DispatchOutcome where
  success : Bool
  invocations : List Invocation
  exc : Option String
deriving DecidableEq, Repr

/-- The `for channel in channels` loop (services.py lines 385-392). `success`
is overwritten by each email/slack channel attempt (`success = ...`), webhook
channels are skipped. `send_email_notification` (lines 460-465) returns False
on an empty recipient list and otherwise raises or returns True;
`send_slack_notification` (lines 950-1080) returns True when Slack is
disabled, False on a missing webhook_url, and posts otherwise, returning True
only for HTTP 200 and catching its own exceptions. An email exception aborts
the loop and escapes to the enclosing `try`. -/
def dispatchChannels (cfg : SendConfig) (t : Transports) :
    List NotificationChannel → Bool → List Invocation → DispatchOutcome
  | [], success, invs => ⟨success, invs, none⟩
  | ch :: rest, success, invs =>
    match ch.channelType with
    | .email =>
      if ch.recipients.isEmpty then
        dispatchChannels cfg t rest false invs
      else
        match t.emailSend ch.recipients with
        | .ok _ => dispatchChannels cfg t rest true (invs ++ [.email ch.recipients])
        | .error m => ⟨success, invs ++ [.email ch.recipients], some m⟩
    | .slack =>
      if !cfg.slackEnabled then
        dispatchChannels cfg t rest true invs
      else
        match ch.webhookUrl with
        | none => dispatchChannels cfg t rest false invs
        | some url =>
          match t.slackPost url with
          | .ok 200 => dispatchChannels cfg t rest true (invs ++ [.slack url])
          | .ok _ => dispatchChannels cfg t rest false (invs ++ [.slack url])
          | .error _ => dispatchChannels cfg t rest false (invs ++ [.slack url])
    | .webhook => dispatchChannels cfg t rest success invs

/-- The whole dispatch inside the `try` block: the channel loop, then — only
when the resolved channel queryset is empty — `send_default_email_notification`
(services.py lines 394-395, 491-492), which mails `DEFAULT_ALERT_EMAIL` and
returns True or raises. -/
def dispatchAll (cfg : SendConfig) (t : Transports)
    (channels : List NotificationChannel) : DispatchOutcome :=
  let o := dispatchChannels cfg t channels false []
  match o.exc with
  | some _ => o
  | none =>
    if channels.isEmpty then
      match t.emailSend [cfg.defaultAlertEmail] with
      | .ok _ => ⟨true, o.invocations ++ [.email [cfg.defaultAlertEmail]], none⟩
      | .error m => ⟨o.success, o.invocations ++ [.email [cfg.defaultAlertEmail]], some m⟩
    else o

/-- Channel resolution (services.py lines 362-366): the rule's routing
channels filtered enabled when the rule has any routing channel at all
(enabled or not — the `.exists()` check is unfiltered), else the customer's
enabled channels. `ruleChannels` is `alert_rule.routing_channels`;
`channelTable` is the `NotificationChannel` table. -/
def resolveChannels (ruleChannels channelTable : List NotificationChannel)
    (customerId : ℕ) : List NotificationChannel :=
  if !ruleChannels.isEmpty then
    ruleChannels.filter (·.enabled)
  else
    channelTable.filter fun c => decide (c.customerId = customerId) && c.enabled

/-- Result of `send_alert_notification`: the returned bool, the AlertEvent row
as left in the database, and the transport calls made. -/
structure SendResult where
  ok : Bool
  event : AlertEvent
  invocations : List Invocation
deriving DecidableEq, Repr

/-- `send_alert_notification(alert_event)` (services.py lines 346-436).
`events` is the AlertEvent table read by the suppression check;
`evidence` stands for `build_driftwatch_evidence_payload(...)` (whose source
is not staged); `now` is `timezone.now()`. Flow: short-circuit on status
'sent' (True) and 'failed' (False); resolve channels; suppression check
marks the event sent with error_message 'suppressed'; otherwise dispatch —
an escaped exception marks the event failed with its message, a final
`success` of True marks it sent, and a final False leaves the row untouched
and returns False. -/
def send_alert_notification (cfg : SendConfig) (t : Transports) (now : ℤ)
    (events : List AlertEvent) (ruleChannels channelTable : List NotificationChannel)
    (evidence : EvidenceArg) (alert_event : AlertEvent) : SendResult :=
  if alert_event.status = AlertStatus.sent then
    ⟨true, alert_event, []⟩
  else if alert_event.status = AlertStatus.failed then
    ⟨false, alert_event, []⟩
  else
    let channels := resolveChannels ruleChannels channelTable alert_event.customerId
    if _is_suppressed now events alert_event.customerId evidence then
      ⟨true,
       { alert_event with
           status := AlertStatus.sent
           notificationSentAt := some now
           errorMessage := some "suppressed" },
       []⟩
    else
      let o := dispatchAll cfg t channels
      match o.exc with
      | some m =>
        ⟨false,
         { alert_event with status := AlertStatus.failed, errorMessage := some m },
         o.invocations⟩
      | none =>
        if o.success then
          ⟨true,
           { alert_event with
               status := AlertStatus.sent
               notificationSentAt := some now
               errorMessage := none },
           o.invocations⟩
        else
          ⟨false, alert_event, o.invocations⟩

/-- The AlertEvent table together with the id the next created row gets. -/
structure AlertStore where
  events : List AlertEvent
  nextId : ℕ
deriving DecidableEq, Repr

/-- The deduplication key of `evaluate_drift_event`: the row's
`(drift_event, alert_rule)` foreign-key pair. -/
def pairKey (driftEventId ruleId : ℕ) (e : AlertEvent) : Bool :=
  decide (e.driftEventId = driftEventId) && decide (e.ruleId = ruleId)

/-- The payload dict built at services.py lines 192-205. -/
def mkAlertPayload (de : DriftEvent) (rule : AlertRule) : AlertPayload :=
  { product_name := some "DriftWatch"
    signal_type := some de.drift_type
    entity_label := some de.payer
    payer := de.payer
    cpt_group := de.cpt_group
    drift_type := de.drift_type
    baseline_value := de.baseline_value
    current_value := de.current_value
    delta_value := de.delta_value
    severity := de.severity
    rule_name := rule.name
    rule_threshold := rule.threshold_value }

/-- The AlertEvent row created at services.py lines 206-209. -/
def mkAlertEvent (de : DriftEvent) (rule : AlertRule) (now : ℤ) (id : ℕ) : AlertEvent :=
  { id := id
    customerId := de.customerId
    ruleId := rule.id
    driftEventId := de.id
    reportRunId := de.reportRunId
    triggeredAt := now
    status := AlertStatus.pending
    payload := mkAlertPayload de rule
    notificationSentAt := none
    errorMessage := none }

/-- The `for rule in alert_rules` loop of `evaluate_drift_event` (services.py
lines 179-225): for each rule that `rule.evaluate(drift_event)` accepts,
return the first existing AlertEvent with the `(drift_event, rule)` key if
one exists, else create one with status 'pending'. The audit-event publish
is external and elided. -/
def evalRules (ruleEval : AlertRule → DriftEvent → Bool) (de : DriftEvent) (now : ℤ) :
    List AlertRule → AlertStore → List AlertEvent × AlertStore
  | [], s => ([], s)
  | rule :: rest, s =>
    if ruleEval rule de then
      match s.events.find? (pairKey de.id rule.id) with
      | some existing =>
        let r := evalRules ruleEval de now rest s
        (existing :: r.1, r.2)
      | none =>
        let ev := mkAlertEvent de rule now s.nextId
        let r := evalRules ruleEval de now rest ⟨s.events ++ [ev], s.nextId + 1⟩
        (ev :: r.1, r.2)
    else
      evalRules ruleEval de now rest s

/-- `evaluate_drift_event(drift_event)` (services.py lines 174-226): the rules
considered are the AlertRule rows of the drift event's customer with
`enabled=True`; `ruleEval` abstracts `AlertRule.evaluate` (alerts/models.py,
not staged). Returns the AlertEvents (existing or created, in rule order)
and the updated store. -/
def evaluate_drift_event (ruleEval : AlertRule → DriftEvent → Bool)
    (rules : List AlertRule) (de : DriftEvent) (now : ℤ) (s : AlertStore) :
    List AlertEvent × AlertStore :=
  evalRules ruleEval de now
    (rules.filter fun r => decide (r.customerId = de.customerId) && r.enabled) s

/-- At most one AlertEvent row per `(drift_event, alert_rule)` pair. -/
def uniquePerPair (events : List AlertEvent) : Prop :=
  ∀ did rid, (events.filter (pairKey did rid)).length ≤ 1

/-! Concrete sample rows used by witnesses and counterexamples. -/

/-- A payload with the key `(DriftWatch, denial_rate, BCBS)`. -/
def basePayload : AlertPayload :=
  ⟨some "DriftWatch", some "denial_rate", some "BCBS", "BCBS", none,
   "denial_rate", 0, 0, 0, 0, "rule", 0⟩

/-- A pending AlertEvent of customer 1 carrying `basePayload`. -/
def pendingAlert : AlertEvent :=
  ⟨100, 1, 1, 5, 9, 0, AlertStatus.pending, basePayload, none, none⟩

/-- A payload keyed on the given entity label. -/
def labelPayload (label : String) : AlertPayload :=
  ⟨some "DriftWatch", some "denial_rate", some label, label, none,
   "denial_rate", 0, 0, 0, 0, "rule", 0⟩

/-- A 'sent' AlertEvent of customer 1 whose notification went out at `t`. -/
def sentAlertAt (t : ℤ) (label : String) : AlertEvent :=
  ⟨10, 1, 1, 1, 9, t, AlertStatus.sent, labelPayload label, some t, none⟩

/-- Evidence dict with the key `(DriftWatch, denial_rate, label)`. -/
def evidenceFor (label : String) : EvidenceArg :=
  .fields (some "DriftWatch") (some "denial_rate") (some label)

/-- A resolved AlertEvent (id `i`, drift event `i`) keyed on `BCBS`. -/
def resolvedAlert (i : ℕ) : AlertEvent :=
  ⟨i, 1, 1, i, 9, 0, AlertStatus.resolved, basePayload, none, none⟩

/-- Two 'noise' judgments on the two resolved alerts. -/
def noiseJudgments : List OperatorJudgment :=
  [⟨1, 1, "noise"⟩, ⟨2, 2, "noise"⟩]

/-- An enabled email channel of customer 1 with one valid recipient. -/
def emailChannel : NotificationChannel :=
  ⟨1, 1, ChannelType.email, true, ["ops@example.com"], none⟩

/-- An enabled slack channel of customer 1 with a webhook URL. -/
def slackChannel : NotificationChannel :=
  ⟨2, 1, ChannelType.slack, true, [], some "https://hooks.example/y"⟩

/-- An enabled webhook channel of customer 1. -/
def webhookChannel : NotificationChannel :=
  ⟨3, 1, ChannelType.webhook, true, [], some "https://callback.example/z"⟩

/-- Settings with `SLACK_ENABLED=True`. -/
def cfgSlackOn : SendConfig := ⟨true, "alerts@example.com"⟩

/-- Transports where SMTP delivers and the Slack webhook is unreachable
(`requests.post` raises). -/
def tSlackDown : Transports :=
  ⟨fun _ => .ok (), fun _ => .error "webhook unreachable"⟩

/-- A concrete instantiation of the abstract `AlertRule.evaluate`:
severity at or above the rule's threshold. -/
def w3Eval : AlertRule → DriftEvent → Bool :=
  fun r d => decide (r.threshold_value ≤ d.severity)

/-- An enabled severity rule of customer 1. -/
def w3Rule : AlertRule := ⟨1, 1, "High severity", true, "severity", "gte", 0⟩

/-- A drift event of customer 1. -/
def w3Drift : DriftEvent := ⟨5, 1, 9, "BCBS", none, "denial_rate", 0, 0, 0, 1⟩

end Payrixa

namespace Upstream

/-- `TimeWindow` (base_drift_detection.py lines 30-34). The source field `end`
is a Lean keyword and is called `stop` here. -/
structure TimeWindow where
  start : ℤ
  stop : ℤ
deriving DecidableEq, Repr

/-- `_compute_time_windows` (base_drift_detection.py lines 163-207), with the
class attributes `DEFAULT_BASELINE_DAYS` / `DEFAULT_CURRENT_DAYS` as the
parameters `baselineDays` / `currentDays` (defaults 90 and 14, overridable by
subclasses) and `timezone.now().date()` as `today`. Dates are day numbers. -/
def _compute_time_windows (baselineDays currentDays : ℕ) (today : ℤ)
    (start_date end_date : Option ℤ) : TimeWindow × TimeWindow :=
  let endDate : ℤ := end_date.getD today
  let startDate : ℤ :=
    start_date.getD (endDate - ((baselineDays : ℤ) + (currentDays : ℤ)))
  let current_end := endDate
  let current_start := max startDate (current_end - (currentDays : ℤ))
  let baseline_end := current_start
  let baseline_start := max startDate (baseline_end - (baselineDays : ℤ))
  (⟨baseline_start, baseline_end⟩, ⟨current_start, current_end⟩)

/-- `compute_confidence_score` (base_drift_detection.py lines 275-305), over
exact rationals; `Decimal(str(...))` is the identity here. The
`significance_threshold` parameter is, as in the source, documentation only. -/
def compute_confidence_score (sample_size : ℤ) (z_score : ℚ)
    (min_sample_size : ℤ) (significance_threshold : ℚ) : ℚ :=
  let sample_factor := min ((sample_size : ℚ) / ((min_sample_size : ℚ) * 2)) 1 * (1/2)
  let z_threshold : ℚ := 196/100
  let significance_factor := min (|z_score| / z_threshold) 1 * (1/2)
  let confidence := sample_factor + significance_factor
  min confidence 1

/-- The rows the drift computation writes: aggregate rows, signal rows and the
published audit events (opaque payloads as numbers/strings). -/
structure DriftDB where
  aggRows : List ℕ
  sigRows : List ℕ
  audits : List String
deriving DecidableEq, Repr

/-- `ComputationResult` (base_drift_detection.py lines 37-44; metadata elided). -/
structure ComputationResult where
  signals_created : ℕ
  aggregates_created : ℕ
  baseline_window : TimeWindow
  current_window : TimeWindow
deriving DecidableEq, Repr

/-- `with transaction.atomic():` — Django guarantees the block's writes are
all-or-nothing: on an exception every write inside the block is rolled back
(the caller keeps the original database) and the exception propagates. -/
def transactionAtomic {α : Type} (body : DriftDB → Except String (α × DriftDB))
    (db : DriftDB) : Except String α × DriftDB :=
  match body db with
  | .ok (a, db') => (.ok a, db')
  | .error e => (.error e, db)

/-- The body of the atomic block in `compute` (base_drift_detection.py lines
131-152): `_compute_aggregates`, then `_detect_signals`, then
`_publish_computation_event`, each a subclass/collaborator hook modelled as a
fallible state transformer returning its count. Nothing catches, so the first
error aborts the block. -/
def computeBody (agg det : DriftDB → Except String (ℕ × DriftDB))
    (pub : ℕ → ℕ → DriftDB → Except String DriftDB)
    (db : DriftDB) : Except String ((ℕ × ℕ) × DriftDB) := do
  let (aggregates_created, db1) ← agg db
  let (signals_created, db2) ← det db1
  let db3 ← pub aggregates_created signals_created db2
  pure ((aggregates_created, signals_created), db3)

/-- `compute` (base_drift_detection.py lines 92-161): resolve the windows,
run aggregates/signals/publish inside one atomic transaction, and return the
structured result. No exception is caught and nothing is retried. -/
def compute (baselineDays currentDays : ℕ) (today : ℤ)
    (start_date end_date : Option ℤ)
    (agg det : DriftDB → Except String (ℕ × DriftDB))
    (pub : ℕ → ℕ → DriftDB → Except String DriftDB)
    (db : DriftDB) : Except String ComputationResult × DriftDB :=
  let w := _compute_time_windows baselineDays currentDays today start_date end_date
  match transactionAtomic (computeBody agg det pub) db with
  | (.ok (aggregates_created, signals_created), db') =>
    (.ok ⟨signals_created, aggregates_created, w.1, w.2⟩, db')
  | (.error e, db') => (.error e, db')

/-- An empty database, for the rollback witness. -/
def emptyDB : DriftDB := ⟨[], [], []⟩

/-- An aggregates hook that writes two aggregate rows and succeeds. -/
def wAgg : DriftDB → Except String (ℕ × DriftDB) :=
  fun db => .ok (2, { db with aggRows := db.aggRows ++ [7, 8] })

/-- A signal-detection hook that raises after the aggregates succeeded. -/
def wDet : DriftDB → Except String (ℕ × DriftDB) :=
  fun _ => .error "detect_signals failed"

/-- A publish hook that records one audit event. -/
def wPub : ℕ → ℕ → DriftDB → Except String DriftDB :=
  fun _ _ db => .ok { db with audits := db.audits ++ ["drift_computed"] }

end Upstream


/-! Theorems about the drift-detection engine. -/

namespace Upstream

/-- Arithmetic core of the window guarantees: with a start bound at or before
the end date, `baseline_start <= baseline_end` and `current_start <= current_end`. -/
theorem windows_arith (b c : ℕ) (sd ed : ℤ) (h : sd ≤ ed) :
    max sd (max sd (ed - (c:ℤ)) - (b:ℤ)) ≤ max sd (ed - (c:ℤ)) ∧
    max sd (ed - (c:ℤ)) ≤ ed := by
  omega

/-- C7: for every reference end date, baseline and current length, and absolute
start date that is None or not after the (resolved) end date, the windows are
contiguous: baseline_start <= baseline_end == current_start <= current_end ==
end_date. -/
theorem compute_time_windows_contiguous (baselineDays currentDays : ℕ)
    (today : ℤ) (start_date end_date : Option ℤ)
    (h : ∀ s, start_date = some s → s ≤ end_date.getD today) :
    (_compute_time_windows baselineDays currentDays today start_date end_date).1.start ≤
      (_compute_time_windows baselineDays currentDays today start_date end_date).1.stop ∧
    (_compute_time_windows baselineDays currentDays today start_date end_date).1.stop =
      (_compute_time_windows baselineDays currentDays today start_date end_date).2.start ∧
    (_compute_time_windows baselineDays currentDays today start_date end_date).2.start ≤
      (_compute_time_windows baselineDays currentDays today start_date end_date).2.stop ∧
    (_compute_time_windows baselineDays currentDays today start_date end_date).2.stop =
      end_date.getD today := by
  have hsd : start_date.getD
      (end_date.getD today - ((baselineDays:ℤ) + (currentDays:ℤ))) ≤
      end_date.getD today := by
    cases start_date with
    | none => simp only [Option.getD_none]; omega
    | some s => simpa using h s rfl
  refine ⟨?_, ?_, ?_, ?_⟩
  · exact (windows_arith baselineDays currentDays _ _ hsd).1
  · rfl
  · exact (windows_arith baselineDays currentDays _ _ hsd).2
  · rfl

/-- Witness for C7 at `(90, 14, today 0, no absolute start, no end date)`. -/
theorem compute_time_windows_contiguous_witness :
    (∀ s : ℤ, (none : Option ℤ) = some s → s ≤ (none : Option ℤ).getD 0) ∧
    ((_compute_time_windows 90 14 0 none none).1.start ≤
      (_compute_time_windows 90 14 0 none none).1.stop ∧
    (_compute_time_windows 90 14 0 none none).1.stop =
      (_compute_time_windows 90 14 0 none none).2.start ∧
    (_compute_time_windows 90 14 0 none none).2.start ≤
      (_compute_time_windows 90 14 0 none none).2.stop ∧
    (_compute_time_windows 90 14 0 none none).2.stop =
      (none : Option ℤ).getD 0) := by
  constructor
  · exact fun _ hs => nomatch hs
  · exact compute_time_windows_contiguous 90 14 0 none none (fun _ hs => nomatch hs)

/-- C9: with the default `min_sample_size=20`, the confidence score equals the
spec's blend `min(min(s/(2*20),1)*0.5 + min(|z|/1.96,1)*0.5, 1)` and lies in
`[0, 1]` for every `sample_size >= 0` and every `z`. -/
theorem compute_confidence_score_spec (sample_size : ℤ) (z : ℚ)
    (h : 0 ≤ sample_size) :
    compute_confidence_score sample_size z 20 (5/100) =
      min (min ((sample_size : ℚ) / (2 * 20)) 1 * (1/2) +
           min (|z| / (196/100)) 1 * (1/2)) 1 ∧
    0 ≤ compute_confidence_score sample_size z 20 (5/100) ∧
    compute_confidence_score sample_size z 20 (5/100) ≤ 1 := by
  have hq : (0:ℚ) ≤ (sample_size : ℚ) := by exact_mod_cast h
  have hA : (0:ℚ) ≤ (sample_size : ℚ) / (((20:ℤ) : ℚ) * 2) :=
    div_nonneg hq (by norm_num)
  have hB : (0:ℚ) ≤ |z| / ((196:ℚ)/100) := div_nonneg (abs_nonneg z) (by norm_num)
  have l1 : (0:ℚ) ≤ min ((sample_size : ℚ) / (((20:ℤ) : ℚ) * 2)) 1 :=
    le_min hA (by norm_num)
  have l2 : (0:ℚ) ≤ min (|z| / ((196:ℚ)/100)) 1 := le_min hB (by norm_num)
  refine ⟨?_, ?_, ?_⟩
  · simp only [compute_confidence_score]
    norm_num
  · show (0:ℚ) ≤ min (min ((sample_size : ℚ) / (((20:ℤ) : ℚ) * 2)) 1 * (1/2) +
        min (|z| / ((196:ℚ)/100)) 1 * (1/2)) 1
    refine le_min ?_ (by norm_num)
    have m1 := mul_nonneg l1 (by norm_num : (0:ℚ) ≤ 1/2)
    have m2 := mul_nonneg l2 (by norm_num : (0:ℚ) ≤ 1/2)
    linarith
  · show min (min ((sample_size : ℚ) / (((20:ℤ) : ℚ) * 2)) 1 * (1/2) +
        min (|z| / ((196:ℚ)/100)) 1 * (1/2)) 1 ≤ 1
    exact min_le_right _ _

/-- Witness for C9 at `sample_size=30`, `z=1`. -/
theorem compute_confidence_score_spec_witness :
    0 ≤ (30:ℤ) ∧
    (compute_confidence_score 30 1 20 (5/100) =
      min (min (((30:ℤ) : ℚ) / (2 * 20)) 1 * (1/2) +
           min (|(1:ℚ)| / (196/100)) 1 * (1/2)) 1 ∧
    0 ≤ compute_confidence_score 30 1 20 (5/100) ∧
    compute_confidence_score 30 1 20 (5/100) ≤ 1) :=
  ⟨by decide, compute_confidence_score_spec 30 1 (by decide)⟩

/-- C4: if any of the three hooks inside `compute`'s transaction raises, the
returned database is exactly the caller's — zero aggregate rows and zero
signal rows from the invocation persist — and the same exception is the
result (propagated unchanged, not retried into a success). -/
theorem compute_rollback_all_or_nothing (baselineDays currentDays : ℕ)
    (today : ℤ) (start_date end_date : Option ℤ)
    (agg det : DriftDB → Except String (ℕ × DriftDB))
    (pub : ℕ → ℕ → DriftDB → Except String DriftDB)
    (db : DriftDB) (err : String)
    (h : computeBody agg det pub db = .error err) :
    compute baselineDays currentDays today start_date end_date agg det pub db =
      (.error err, db) ∧
    (compute baselineDays currentDays today start_date end_date agg det pub db).2.aggRows =
      db.aggRows ∧
    (compute baselineDays currentDays today start_date end_date agg det pub db).2.sigRows =
      db.sigRows := by
  have hc : compute baselineDays currentDays today start_date end_date agg det pub db =
      (.error err, db) := by
    simp only [compute, transactionAtomic, h]
  exact ⟨hc, by rw [hc], by rw [hc]⟩

/-- Witness for C4: `_detect_signals` raises after `_compute_aggregates`
succeeded and wrote two rows; the empty database survives unchanged. -/
theorem compute_rollback_all_or_nothing_witness :
    computeBody wAgg wDet wPub emptyDB = .error "detect_signals failed" ∧
    (compute 90 14 0 none none wAgg wDet wPub emptyDB =
      (.error "detect_signals failed", emptyDB) ∧
    (compute 90 14 0 none none wAgg wDet wPub emptyDB).2.aggRows = emptyDB.aggRows ∧
    (compute 90 14 0 none none wAgg wDet wPub emptyDB).2.sigRows = emptyDB.sigRows) :=
  ⟨rfl, compute_rollback_all_or_nothing 90 14 0 none none wAgg wDet wPub emptyDB
    "detect_signals failed" rfl⟩

end Upstream

/-! Theorems about alert suppression. -/

namespace Payrixa

/-- C5: for non-empty evidence, the suppression check is true iff some
AlertEvent of the same customer was sent within the last 4 hours with the
same payload key; falsy evidence is never suppressed; concretely, an
identical key sent 2 hours ago suppresses, one sent 4 hours 1 minute ago
does not, and a differing entity_label never suppresses. -/
theorem is_suppressed_iff_cooldown (now : ℤ) (events : List AlertEvent)
    (customerId : ℕ) (p s e : Option String) :
    (_is_suppressed now events customerId (.fields p s e) = true ↔
      ∃ ev ∈ events, ev.customerId = customerId ∧ ev.status = AlertStatus.sent ∧
        (∃ t, ev.notificationSentAt = some t ∧ now - ALERT_SUPPRESSION_COOLDOWN ≤ t) ∧
        ev.payload.product_name = p ∧ ev.payload.signal_type = s ∧
        ev.payload.entity_label = e) ∧
    _is_suppressed now events customerId EvidenceArg.empty = false ∧
    _is_suppressed 0 [sentAlertAt (-120) "PayerA"] 1 (evidenceFor "PayerA") = true ∧
    _is_suppressed 0 [sentAlertAt (-241) "PayerA"] 1 (evidenceFor "PayerA") = false ∧
    _is_suppressed 0 [sentAlertAt (-120) "PayerA"] 1 (evidenceFor "PayerB") = false := by
  refine ⟨?_, rfl, by decide, by decide, by decide⟩
  simp only [_is_suppressed, List.any_eq_true, suppressionRowMatch, Bool.and_eq_true,
    decide_eq_true_eq]
  constructor
  · rintro ⟨ev, hev, ⟨⟨⟨⟨⟨h1, h2⟩, h3⟩, h4⟩, h5⟩, h6⟩⟩
    refine ⟨ev, hev, h1, h2, ?_, h4, h5, h6⟩
    cases hnt : ev.notificationSentAt with
    | none => rw [hnt] at h3; simp at h3
    | some t => rw [hnt] at h3; simp at h3; exact ⟨t, rfl, by omega⟩
  · rintro ⟨ev, hev, h1, h2, ⟨t, hnt, ht⟩, h4, h5, h6⟩
    refine ⟨ev, hev, ⟨⟨⟨⟨⟨h1, h2⟩, ?_⟩, h4⟩, h5⟩, h6⟩⟩
    rw [hnt]; simpa using ht

/-- C2 counterexample: two resolved AlertEvents with the evidence key have
accumulated two 'noise' OperatorJudgments — the spec's noise-pattern trigger
holds — yet `_is_suppressed` returns false (no 'sent' event in the window):
the code never consults OperatorJudgment records. -/
theorem noise_pattern_not_suppressing :
    noisePatternSpec [resolvedAlert 1, resolvedAlert 2] noiseJudgments
      (some "DriftWatch") (some "denial_rate") (some "BCBS") = true ∧
    _is_suppressed 0 [resolvedAlert 1, resolvedAlert 2] 1
      (.fields (some "DriftWatch") (some "denial_rate") (some "BCBS")) = false := by
  constructor
  · decide
  · decide

/-- C2 amended: however many 'noise' judgments the resolved AlertEvents with
the evidence key have accumulated, the suppression check returns false
whenever no row passes the 4-hour cooldown filter — noise-pattern
suppression does not exist in this code. -/
theorem is_suppressed_ignores_noise_judgments (now : ℤ) (events : List AlertEvent)
    (judgments : List OperatorJudgment) (customerId : ℕ) (p s e : Option String)
    (hnoise : noisePatternSpec events judgments p s e = true)
    (hnone : ∀ ev ∈ events, suppressionRowMatch now customerId p s e ev = false) :
    _is_suppressed now events customerId (.fields p s e) = false := by
  cases hny : events.any (suppressionRowMatch now customerId p s e) with
  | false => simp [_is_suppressed, hny]
  | true =>
    obtain ⟨ev, hev, hm⟩ := List.any_eq_true.mp hny
    rw [hnone ev hev] at hm
    cases hm

/-- Witness for the C2 amended claim at the counterexample's data. -/
theorem is_suppressed_ignores_noise_judgments_witness :
    noisePatternSpec [resolvedAlert 1, resolvedAlert 2] noiseJudgments
      (some "DriftWatch") (some "denial_rate") (some "BCBS") = true ∧
    (∀ ev ∈ [resolvedAlert 1, resolvedAlert 2],
      suppressionRowMatch 0 1 (some "DriftWatch") (some "denial_rate")
        (some "BCBS") ev = false) ∧
    _is_suppressed 0 [resolvedAlert 1, resolvedAlert 2] 1
      (.fields (some "DriftWatch") (some "denial_rate") (some "BCBS")) = false := by
  refine ⟨by decide, by decide, ?_⟩
  exact is_suppressed_ignores_noise_judgments 0 [resolvedAlert 1, resolvedAlert 2]
    noiseJudgments 1 (some "DriftWatch") (some "denial_rate") (some "BCBS")
    (by decide) (by decide)

end Payrixa

/-! Theorems about notification delivery. -/

namespace Payrixa

/-- C8: a pending AlertEvent whose evidence key is suppressed is marked sent
with error_message 'suppressed' and notification_sent_at now, the call
returns True, and no channel transport is invoked. -/
theorem send_suppressed_marks_sent (cfg : SendConfig) (t : Transports) (now : ℤ)
    (events : List AlertEvent) (rc ct : List NotificationChannel)
    (evd : EvidenceArg) (ae : AlertEvent)
    (hp : ae.status = AlertStatus.pending)
    (hs : _is_suppressed now events ae.customerId evd = true) :
    send_alert_notification cfg t now events rc ct evd ae =
      ⟨true,
       { ae with status := AlertStatus.sent, notificationSentAt := some now,
                 errorMessage := some "suppressed" },
       []⟩ := by
  simp [send_alert_notification, hp, hs]

/-- Witness for C8: a matching alert sent an hour ago suppresses the pending
one. -/
theorem send_suppressed_marks_sent_witness :
    pendingAlert.status = AlertStatus.pending ∧
    _is_suppressed 0 [sentAlertAt (-60) "BCBS"] pendingAlert.customerId
      (evidenceFor "BCBS") = true ∧
    send_alert_notification cfgSlackOn tSlackDown 0 [sentAlertAt (-60) "BCBS"]
        [] [] (evidenceFor "BCBS") pendingAlert =
      ⟨true,
       { pendingAlert with status := AlertStatus.sent, notificationSentAt := some 0,
                           errorMessage := some "suppressed" },
       []⟩ := by
  refine ⟨rfl, by decide, ?_⟩
  exact send_suppressed_marks_sent cfgSlackOn tSlackDown 0 [sentAlertAt (-60) "BCBS"]
    [] [] (evidenceFor "BCBS") pendingAlert rfl (by decide)

/-- Channels that are all webhook-type or recipientless email channels invoke
no transport and leave the loop's `success` False with no exception. -/
theorem dispatch_skips_give_false (cfg : SendConfig) (t : Transports) :
    ∀ (chs : List NotificationChannel) (invs : List Invocation),
    (∀ ch ∈ chs, ch.channelType = ChannelType.webhook ∨
      (ch.channelType = ChannelType.email ∧ ch.recipients = [])) →
    dispatchChannels cfg t chs false invs = ⟨false, invs, none⟩ := by
  intro chs
  induction chs with
  | nil => intro invs _; rfl
  | cons ch rest ih =>
    intro invs h
    have hch := h ch (by simp)
    have hrest : ∀ c ∈ rest, c.channelType = ChannelType.webhook ∨
        (c.channelType = ChannelType.email ∧ c.recipients = []) :=
      fun c hc => h c (by simp [hc])
    rcases hch with hw | ⟨he, hr⟩
    · simp only [dispatchChannels, hw]
      exact ih invs hrest
    · simp only [dispatchChannels, he, hr, List.isEmpty_nil, if_true]
      exact ih invs hrest

/-- C10: a pending, non-suppressed AlertEvent whose dispatch raises no
exception and ends with `success` False is returned False and left completely
unchanged — not transitioned to 'failed' — and in particular this happens
whenever the resolved channels are all webhook-type or recipientless email
channels (then no transport is invoked at all). -/
theorem send_no_channel_success_stays_pending (cfg : SendConfig) (t : Transports)
    (now : ℤ) (events : List AlertEvent) (rc ct : List NotificationChannel)
    (evd : EvidenceArg) (ae : AlertEvent)
    (hp : ae.status = AlertStatus.pending)
    (hsup : _is_suppressed now events ae.customerId evd = false) :
    ((dispatchAll cfg t (resolveChannels rc ct ae.customerId)).exc = none →
     (dispatchAll cfg t (resolveChannels rc ct ae.customerId)).success = false →
     send_alert_notification cfg t now events rc ct evd ae =
       ⟨false, ae, (dispatchAll cfg t (resolveChannels rc ct ae.customerId)).invocations⟩) ∧
    ((resolveChannels rc ct ae.customerId).isEmpty = false →
     (∀ ch ∈ resolveChannels rc ct ae.customerId,
        ch.channelType = ChannelType.webhook ∨
        (ch.channelType = ChannelType.email ∧ ch.recipients = [])) →
     send_alert_notification cfg t now events rc ct evd ae = ⟨false, ae, []⟩) := by
  constructor
  · intro hexc hsucc
    simp [send_alert_notification, hp, hsup, hexc, hsucc]
  · intro hne hall
    have hd : dispatchChannels cfg t (resolveChannels rc ct ae.customerId) false [] =
        ⟨false, [], none⟩ :=
      dispatch_skips_give_false cfg t _ [] hall
    have hda : dispatchAll cfg t (resolveChannels rc ct ae.customerId) =
        ⟨false, [], none⟩ := by
      simp [dispatchAll, hd, hne]
    simp [send_alert_notification, hp, hsup, hda]

/-- Witness for C10: one enabled webhook channel; the pending event survives
two facts — returns False and stays untouched. -/
theorem send_no_channel_success_stays_pending_witness :
    pendingAlert.status = AlertStatus.pending ∧
    _is_suppressed 0 [] pendingAlert.customerId EvidenceArg.empty = false ∧
    (((dispatchAll cfgSlackOn tSlackDown
        (resolveChannels [] [webhookChannel] pendingAlert.customerId)).exc = none →
      (dispatchAll cfgSlackOn tSlackDown
        (resolveChannels [] [webhookChannel] pendingAlert.customerId)).success = false →
      send_alert_notification cfgSlackOn tSlackDown 0 [] [] [webhookChannel]
          EvidenceArg.empty pendingAlert =
        ⟨false, pendingAlert,
         (dispatchAll cfgSlackOn tSlackDown
           (resolveChannels [] [webhookChannel] pendingAlert.customerId)).invocations⟩) ∧
     ((resolveChannels [] [webhookChannel] pendingAlert.customerId).isEmpty = false →
      (∀ ch ∈ resolveChannels [] [webhookChannel] pendingAlert.customerId,
         ch.channelType = ChannelType.webhook ∨
         (ch.channelType = ChannelType.email ∧ ch.recipients = [])) →
      send_alert_notification cfgSlackOn tSlackDown 0 [] [] [webhookChannel]
          EvidenceArg.empty pendingAlert = ⟨false, pendingAlert, []⟩)) := by
  refine ⟨rfl, rfl, ?_⟩
  exact send_no_channel_success_stays_pending cfgSlackOn tSlackDown 0 [] []
    [webhookChannel] EvidenceArg.empty pendingAlert rfl rfl

/-- C6 counterexample: with one enabled Slack channel whose webhook is
unreachable, the first send leaves the event pending, so a second consecutive
send posts to the same webhook again — the Slack transport is invoked twice
across the two calls, not at most once. -/
theorem send_retries_transport_counterexample :
    (send_alert_notification cfgSlackOn tSlackDown 0 [] [slackChannel] []
        EvidenceArg.empty pendingAlert).invocations =
      [Invocation.slack "https://hooks.example/y"] ∧
    (send_alert_notification cfgSlackOn tSlackDown 0 [] [slackChannel] []
        EvidenceArg.empty
        ((send_alert_notification cfgSlackOn tSlackDown 0 [] [slackChannel] []
            EvidenceArg.empty pendingAlert).event)).invocations =
      [Invocation.slack "https://hooks.example/y"] ∧
    ¬((send_alert_notification cfgSlackOn tSlackDown 0 [] [slackChannel] []
        EvidenceArg.empty pendingAlert).invocations ++
      (send_alert_notification cfgSlackOn tSlackDown 0 [] [slackChannel] []
        EvidenceArg.empty
        ((send_alert_notification cfgSlackOn tSlackDown 0 [] [slackChannel] []
            EvidenceArg.empty pendingAlert).event)).invocations).length ≤ 1 := by
  refine ⟨by decide, by decide, by decide⟩

/-- C6 amended: a send on an already-'sent' event returns True and on an
already-'failed' one returns False, in both cases invoking no transport and
leaving the row untouched; hence when the first call leaves the event 'sent'
or 'failed', a second consecutive call invokes no channel transport at all
and changes nothing. -/
theorem send_terminal_noop_idempotent (cfg : SendConfig) (t : Transports)
    (now : ℤ) (events : List AlertEvent) (rc ct : List NotificationChannel)
    (evd : EvidenceArg) (ae : AlertEvent) :
    (ae.status = AlertStatus.sent →
      send_alert_notification cfg t now events rc ct evd ae = ⟨true, ae, []⟩) ∧
    (ae.status = AlertStatus.failed →
      send_alert_notification cfg t now events rc ct evd ae = ⟨false, ae, []⟩) ∧
    (((send_alert_notification cfg t now events rc ct evd ae).event.status =
        AlertStatus.sent ∨
      (send_alert_notification cfg t now events rc ct evd ae).event.status =
        AlertStatus.failed) →
     (send_alert_notification cfg t now events rc ct evd
        ((send_alert_notification cfg t now events rc ct evd ae).event)).invocations = [] ∧
     (send_alert_notification cfg t now events rc ct evd
        ((send_alert_notification cfg t now events rc ct evd ae).event)).event =
       (send_alert_notification cfg t now events rc ct evd ae).event) := by
  have hsent : ∀ b : AlertEvent, b.status = AlertStatus.sent →
      send_alert_notification cfg t now events rc ct evd b = ⟨true, b, []⟩ := by
    intro b hb
    simp [send_alert_notification, hb]
  have hfail : ∀ b : AlertEvent, b.status = AlertStatus.failed →
      send_alert_notification cfg t now events rc ct evd b = ⟨false, b, []⟩ := by
    intro b hb
    simp [send_alert_notification, hb]
  refine ⟨hsent ae, hfail ae, ?_⟩
  rintro (h | h)
  · rw [hsent _ h]
    exact ⟨rfl, rfl⟩
  · rw [hfail _ h]
    exact ⟨rfl, rfl⟩

/-- C1: a pending event with one valid email channel and one enabled Slack
channel whose webhook is unreachable. The email transport is invoked and
delivers, yet the call returns False and leaves the event pending (the loop
overwrites `success` with each channel's result instead of accumulating it),
contradicting the function's own documentation that any one succeeding
channel marks the alert sent. -/
theorem send_partial_failure_code_bug :
    send_alert_notification cfgSlackOn tSlackDown 0 [] [emailChannel, slackChannel]
        [] EvidenceArg.empty pendingAlert =
      ⟨false, pendingAlert,
       [Invocation.email ["ops@example.com"],
        Invocation.slack "https://hooks.example/y"]⟩ ∧
    tSlackDown.emailSend ["ops@example.com"] = .ok () := by
  refine ⟨by decide, rfl⟩

end Payrixa

/-! Theorems about alert evaluation (claim C3). -/

namespace Payrixa

/-- A match found in a prefix is the match of the whole list. -/
theorem find?_append_some {p : AlertEvent → Bool} {l₁ l₂ : List AlertEvent}
    {e : AlertEvent} (h : l₁.find? p = some e) : (l₁ ++ l₂).find? p = some e := by
  rw [List.find?_append, h]
  rfl

/-- With no match in the prefix, search continues in the suffix. -/
theorem find?_append_none {p : AlertEvent → Bool} {l₁ l₂ : List AlertEvent}
    (h : l₁.find? p = none) : (l₁ ++ l₂).find? p = l₂.find? p := by
  rw [List.find?_append, h]
  rfl

/-- Unfolding `evalRules` on a matching rule with an existing AlertEvent. -/
theorem evalRules_cons_pos_some (f : AlertRule → DriftEvent → Bool)
    (de : DriftEvent) (now : ℤ) (rule : AlertRule) (rest : List AlertRule)
    (s : AlertStore) (existing : AlertEvent)
    (hf : f rule de = true)
    (hfind : s.events.find? (pairKey de.id rule.id) = some existing) :
    evalRules f de now (rule :: rest) s =
      (existing :: (evalRules f de now rest s).1, (evalRules f de now rest s).2) := by
  simp [evalRules, hf, hfind]

/-- Unfolding `evalRules` on a matching rule with no existing AlertEvent. -/
theorem evalRules_cons_pos_none (f : AlertRule → DriftEvent → Bool)
    (de : DriftEvent) (now : ℤ) (rule : AlertRule) (rest : List AlertRule)
    (s : AlertStore)
    (hf : f rule de = true)
    (hfind : s.events.find? (pairKey de.id rule.id) = none) :
    evalRules f de now (rule :: rest) s =
      (mkAlertEvent de rule now s.nextId ::
        (evalRules f de now rest
          ⟨s.events ++ [mkAlertEvent de rule now s.nextId], s.nextId + 1⟩).1,
       (evalRules f de now rest
          ⟨s.events ++ [mkAlertEvent de rule now s.nextId], s.nextId + 1⟩).2) := by
  simp [evalRules, hf, hfind]

/-- Unfolding `evalRules` on a non-matching rule. -/
theorem evalRules_cons_neg (f : AlertRule → DriftEvent → Bool)
    (de : DriftEvent) (now : ℤ) (rule : AlertRule) (rest : List AlertRule)
    (s : AlertStore) (hf : f rule de = false) :
    evalRules f de now (rule :: rest) s = evalRules f de now rest s := by
  simp [evalRules, hf]

/-- Evaluation only appends AlertEvent rows, never removes or edits them. -/
theorem evalRules_events_mono (f : AlertRule → DriftEvent → Bool)
    (de : DriftEvent) (now : ℤ) : ∀ (rules : List AlertRule) (s : AlertStore),
    ∃ Δ, ((evalRules f de now rules s).2).events = s.events ++ Δ := by
  intro rules
  induction rules with
  | nil => intro s; exact ⟨[], by simp [evalRules]⟩
  | cons rule rest ih =>
    intro s
    by_cases hf : f rule de = true
    · cases hfind : s.events.find? (pairKey de.id rule.id) with
      | some existing =>
        obtain ⟨Δ, hΔ⟩ := ih s
        exact ⟨Δ, by rw [evalRules_cons_pos_some f de now rule rest s existing hf hfind]; exact hΔ⟩
      | none =>
        obtain ⟨Δ, hΔ⟩ :=
          ih ⟨s.events ++ [mkAlertEvent de rule now s.nextId], s.nextId + 1⟩
        refine ⟨[mkAlertEvent de rule now s.nextId] ++ Δ, ?_⟩
        rw [evalRules_cons_pos_none f de now rule rest s hf hfind]
        rw [hΔ]
        simp [List.append_assoc]
    · have hf' : f rule de = false := by simpa using hf
      obtain ⟨Δ, hΔ⟩ := ih s
      exact ⟨Δ, by rw [evalRules_cons_neg f de now rule rest s hf']; exact hΔ⟩

/-- The created row carries the pair key it was created for. -/
theorem pairKey_mkAlertEvent (de : DriftEvent) (rule : AlertRule) (now : ℤ) (n : ℕ) :
    pairKey de.id rule.id (mkAlertEvent de rule now n) = true := by
  simp [pairKey, mkAlertEvent]

/-- Re-running the rule loop on the store it produced returns the same
AlertEvents and changes nothing. -/
theorem evalRules_idempotent (f : AlertRule → DriftEvent → Bool)
    (de : DriftEvent) (now : ℤ) : ∀ (rules : List AlertRule) (s : AlertStore),
    evalRules f de now rules ((evalRules f de now rules s).2) =
      evalRules f de now rules s := by
  intro rules
  induction rules with
  | nil => intro s; rfl
  | cons rule rest ih =>
    intro s
    by_cases hf : f rule de = true
    · cases hfind : s.events.find? (pairKey de.id rule.id) with
      | some existing =>
        obtain ⟨Δ, hΔ⟩ := evalRules_events_mono f de now rest s
        have hfind2 : ((evalRules f de now rest s).2).events.find?
            (pairKey de.id rule.id) = some existing := by
          rw [hΔ]
          exact find?_append_some hfind
        rw [evalRules_cons_pos_some f de now rule rest s existing hf hfind]
        rw [evalRules_cons_pos_some f de now rule rest
          ((evalRules f de now rest s).2) existing hf hfind2]
        rw [ih s]
      | none =>
        obtain ⟨Δ, hΔ⟩ := evalRules_events_mono f de now rest
          ⟨s.events ++ [mkAlertEvent de rule now s.nextId], s.nextId + 1⟩
        have hfind2 : ((evalRules f de now rest
            ⟨s.events ++ [mkAlertEvent de rule now s.nextId], s.nextId + 1⟩).2).events.find?
            (pairKey de.id rule.id) = some (mkAlertEvent de rule now s.nextId) := by
          rw [hΔ]
          show ((s.events ++ [mkAlertEvent de rule now s.nextId]) ++ Δ).find?
            (pairKey de.id rule.id) = some (mkAlertEvent de rule now s.nextId)
          rw [List.append_assoc, find?_append_none hfind]
          simp [List.find?_cons, pairKey_mkAlertEvent]
        rw [evalRules_cons_pos_none f de now rule rest s hf hfind]
        rw [evalRules_cons_pos_some f de now rule rest
          ((evalRules f de now rest
            ⟨s.events ++ [mkAlertEvent de rule now s.nextId], s.nextId + 1⟩).2)
          (mkAlertEvent de rule now s.nextId) hf hfind2]
        rw [ih ⟨s.events ++ [mkAlertEvent de rule now s.nextId], s.nextId + 1⟩]
    · have hf' : f rule de = false := by simpa using hf
      rw [evalRules_cons_neg f de now rule rest s hf']
      rw [evalRules_cons_neg f de now rule rest ((evalRules f de now rest s).2) hf']
      exact ih s

/-- Evaluation preserves the at-most-one-AlertEvent-per-pair invariant. -/
theorem evalRules_unique (f : AlertRule → DriftEvent → Bool)
    (de : DriftEvent) (now : ℤ) : ∀ (rules : List AlertRule) (s : AlertStore),
    uniquePerPair s.events →
    uniquePerPair ((evalRules f de now rules s).2).events := by
  intro rules
  induction rules with
  | nil => intro s h; exact h
  | cons rule rest ih =>
    intro s h
    by_cases hf : f rule de = true
    · cases hfind : s.events.find? (pairKey de.id rule.id) with
      | some existing =>
        rw [evalRules_cons_pos_some f de now rule rest s existing hf hfind]
        exact ih s h
      | none =>
        rw [evalRules_cons_pos_none f de now rule rest s hf hfind]
        refine ih ⟨s.events ++ [mkAlertEvent de rule now s.nextId], s.nextId + 1⟩ ?_
        intro did rid
        show ((s.events ++ [mkAlertEvent de rule now s.nextId]).filter
          (pairKey did rid)).length ≤ 1
        rw [List.filter_append]
        by_cases hk : pairKey did rid (mkAlertEvent de rule now s.nextId) = true
        · have hde : de.id = did ∧ rule.id = rid := by
            simpa [pairKey, mkAlertEvent] using hk
          obtain ⟨h1, h2⟩ := hde
          subst h1
          subst h2
          have hnil : s.events.filter (pairKey de.id rule.id) = [] := by
            rw [List.filter_eq_nil_iff]
            intro a ha
            have := List.find?_eq_none.mp hfind a ha
            simpa using this
          simp [hnil, List.filter_cons, hk]
        · have hone : List.filter (pairKey did rid)
              [mkAlertEvent de rule now s.nextId] = [] := by
            simp [List.filter_cons, hk]
          rw [hone, List.append_nil]
          exact h did rid
    · have hf' : f rule de = false := by simpa using hf
      rw [evalRules_cons_neg f de now rule rest s hf']
      exact ih s h

/-- Every AlertEvent the rule loop returns is in the resulting store, is
either pre-existing or freshly 'pending', and belongs to a matching rule and
to the drift event. -/
theorem evalRules_mem (f : AlertRule → DriftEvent → Bool)
    (de : DriftEvent) (now : ℤ) : ∀ (rules : List AlertRule) (s : AlertStore),
    ∀ e ∈ (evalRules f de now rules s).1,
    e ∈ ((evalRules f de now rules s).2).events ∧
    (e ∈ s.events ∨ e.status = AlertStatus.pending) ∧
    ∃ r ∈ rules, f r de = true ∧ e.driftEventId = de.id ∧ e.ruleId = r.id := by
  intro rules
  induction rules with
  | nil =>
    intro s e he
    simp [evalRules] at he
  | cons rule rest ih =>
    intro s e he
    by_cases hf : f rule de = true
    · cases hfind : s.events.find? (pairKey de.id rule.id) with
      | some existing =>
        rw [evalRules_cons_pos_some f de now rule rest s existing hf hfind] at he ⊢
        rcases List.mem_cons.mp he with rfl | htail
        · have hmem : e ∈ s.events := List.mem_of_find?_eq_some hfind
          have hp : pairKey de.id rule.id e = true := List.find?_some hfind
          have hids : e.driftEventId = de.id ∧ e.ruleId = rule.id := by
            simpa [pairKey] using hp
          obtain ⟨Δ, hΔ⟩ := evalRules_events_mono f de now rest s
          refine ⟨?_, Or.inl hmem, rule, List.mem_cons_self rule rest, hf,
            hids.1, hids.2⟩
          show e ∈ ((evalRules f de now rest s).2).events
          rw [hΔ]
          exact List.mem_append_left _ hmem
        · obtain ⟨h1, h2, r, hr, hrest⟩ := ih s e htail
          exact ⟨h1, h2, r, List.mem_cons_of_mem rule hr, hrest⟩
      | none =>
        rw [evalRules_cons_pos_none f de now rule rest s hf hfind] at he ⊢
        rcases List.mem_cons.mp he with rfl | htail
        · obtain ⟨Δ, hΔ⟩ := evalRules_events_mono f de now rest
            ⟨s.events ++ [mkAlertEvent de rule now s.nextId], s.nextId + 1⟩
          refine ⟨?_, Or.inr rfl, rule, List.mem_cons_self rule rest, hf, rfl, rfl⟩
          show mkAlertEvent de rule now s.nextId ∈
            ((evalRules f de now rest
              ⟨s.events ++ [mkAlertEvent de rule now s.nextId], s.nextId + 1⟩).2).events
          rw [hΔ]
          exact List.mem_append_left _ (List.mem_append_right _ (by simp))
        · obtain ⟨h1, h2, r, hr, hrest⟩ :=
            ih ⟨s.events ++ [mkAlertEvent de rule now s.nextId], s.nextId + 1⟩ e htail
          refine ⟨h1, ?_, r, List.mem_cons_of_mem rule hr, hrest⟩
          rcases h2 with hmem | hpend
          · rcases List.mem_append.mp hmem with hin | hnew
            · exact Or.inl hin
            · have : e = mkAlertEvent de rule now s.nextId := by simpa using hnew
              exact Or.inr (by rw [this]; rfl)
          · exact Or.inr hpend
    · have hf' : f rule de = false := by simpa using hf
      rw [evalRules_cons_neg f de now rule rest s hf'] at he ⊢
      obtain ⟨h1, h2, r, hr, hrest⟩ := ih s e he
      exact ⟨h1, h2, r, List.mem_cons_of_mem rule hr, hrest⟩

/-- C3: starting from a store with at most one AlertEvent per
`(drift_event, alert_rule)` pair, `evaluate_drift_event` (i) is idempotent —
re-running it on the store it produced returns the same AlertEvents and
changes nothing, so any number of calls with an unchanged rule set agree —
(ii) preserves the at-most-one-per-pair invariant, and (iii) every returned
AlertEvent is stored, is pre-existing or freshly created with status
'pending', and corresponds to an enabled rule of the drift event's customer
that matched. -/
theorem evaluate_drift_event_spec (ruleEval : AlertRule → DriftEvent → Bool)
    (rules : List AlertRule) (de : DriftEvent) (now : ℤ) (s : AlertStore)
    (h : uniquePerPair s.events) :
    evaluate_drift_event ruleEval rules de now
        ((evaluate_drift_event ruleEval rules de now s).2) =
      evaluate_drift_event ruleEval rules de now s ∧
    uniquePerPair ((evaluate_drift_event ruleEval rules de now s).2).events ∧
    ∀ e ∈ (evaluate_drift_event ruleEval rules de now s).1,
      e ∈ ((evaluate_drift_event ruleEval rules de now s).2).events ∧
      (e ∈ s.events ∨ e.status = AlertStatus.pending) ∧
      ∃ r ∈ rules, r.customerId = de.customerId ∧ r.enabled = true ∧
        ruleEval r de = true ∧ e.driftEventId = de.id ∧ e.ruleId = r.id := by
  refine ⟨evalRules_idempotent ruleEval de now _ s,
    evalRules_unique ruleEval de now _ s h, ?_⟩
  intro e he
  obtain ⟨h1, h2, r, hr, hfr, hid1, hid2⟩ := evalRules_mem ruleEval de now _ s e he
  have hr' := List.mem_filter.mp hr
  have hc := hr'.2
  simp only [Bool.and_eq_true, decide_eq_true_eq] at hc
  exact ⟨h1, h2, r, hr'.1, hc.1, hc.2, hfr, hid1, hid2⟩

/-- Witness for C3: one enabled matching rule against an empty store. -/
theorem evaluate_drift_event_spec_witness :
    uniquePerPair (AlertStore.mk [] 0).events ∧
    (evaluate_drift_event w3Eval [w3Rule] w3Drift 0
        ((evaluate_drift_event w3Eval [w3Rule] w3Drift 0 (AlertStore.mk [] 0)).2) =
      evaluate_drift_event w3Eval [w3Rule] w3Drift 0 (AlertStore.mk [] 0) ∧
    uniquePerPair
      ((evaluate_drift_event w3Eval [w3Rule] w3Drift 0 (AlertStore.mk [] 0)).2).events ∧
    ∀ e ∈ (evaluate_drift_event w3Eval [w3Rule] w3Drift 0 (AlertStore.mk [] 0)).1,
      e ∈ ((evaluate_drift_event w3Eval [w3Rule] w3Drift 0 (AlertStore.mk [] 0)).2).events ∧
      (e ∈ (AlertStore.mk [] 0).events ∨ e.status = AlertStatus.pending) ∧
      ∃ r ∈ [w3Rule], r.customerId = w3Drift.customerId ∧ r.enabled = true ∧
        w3Eval r w3Drift = true ∧ e.driftEventId = w3Drift.id ∧ e.ruleId = r.id) := by
  have hu : uniquePerPair (AlertStore.mk [] 0).events := by
    intro did rid
    simp [List.filter]
  exact ⟨hu, evaluate_drift_event_spec w3Eval [w3Rule] w3Drift 0 (AlertStore.mk [] 0) hu⟩

end Payrixa
